import Mathlib

/-!
Verification development for the spotgen source-extraction and
entity-resolution core.

The definitions below are a shallow embedding of the JavaScript sources:
  - `src/src/album.js`   (the `Album` entry),
  - `src/src/artist.js`  (the `Artist` entry),
  - `src/unnamed/part_000` (the `WebScraper` with its per-site crawls).

JavaScript conventions used throughout the embedding:
  - a nullable field becomes an `Option`;
  - JS truthiness of a string value (`undefined`/`null`/`""` are falsy)
    is `strTruthy`; truthiness of a number (`0` falsy) is `intTruthy`;
    an object or an array is always truthy, so truthiness of an
    optional object is `Option.isSome`;
  - a promise chain becomes explicit `Except` passing, where
    `Except.error` is a rejected promise and the error value is the
    rejection value;
  - the remote catalog client (`spotify.js`, not part of the sources)
    is an oracle `CatalogEnv` of functions supplied by the environment;
  - asynchronous recursion over pages is expressed with an explicit
    fuel parameter; running out of fuel is the distinct outcome
    `CrawlErr.fuel` (a crawl that would not terminate).
-/

namespace Spotgen

/-- JS `String.prototype.trim`: strip whitespace from both ends. -/
def jsTrim (s : String) : String :=
  ⟨((s.data.dropWhile Char.isWhitespace).reverse.dropWhile Char.isWhitespace).reverse⟩

/-- JS truthiness of a possibly-absent string (`undefined`, `null` and
`""` are falsy, every other string is truthy). -/
def strTruthy : Option String → Bool
  | some s => !s.toList.isEmpty
  | none => false

/-- JS truthiness of a possibly-absent number (`undefined` and `0` are
falsy). -/
def intTruthy : Option Int → Bool
  | some n => n != 0
  | none => false

/-- An ASCII alphanumeric character, the character class `[0-9a-z]`
under the `i` flag. -/
def isAsciiAlnum (c : Char) : Bool :=
  c.isDigit || c.isLower || c.isUpper

/-- The test `entry.match(/[0-9a-z]+$/i)` from `album.js` line 147 and
`artist.js` line 137: the regex is unanchored on the left, so it
succeeds exactly when the string is nonempty and its last character is
ASCII alphanumeric. -/
def matchesIdShape (s : String) : Bool :=
  match s.toList.reverse with
  | c :: _ => isAsciiAlnum c
  | [] => false

/-- The spec's words for the fallback guard: the reference string
itself "looks like a catalog identifier (matches an alphanumeric-id
shape)", i.e. it is a nonempty string consisting only of alphanumeric
characters.  Stated from the spec, to be compared with the source's
`matchesIdShape`. -/
def specIdShape (s : String) : Bool :=
  !s.toList.isEmpty && s.toList.all isAsciiAlnum

/-- A track object inside a full album response (`tracks.items` entry).
`artists` is the list of credited artist names, the part of the track
metadata that `Track.hasArtist` consults. -/
structure TrackItem where
  id : Option String := none
  name : Option String := none
  artists : List String := []
deriving DecidableEq, Repr

/-- An album or artist object inside a listing (`albums.items`,
`artists.items` or a `getAlbumsByArtist` `items` entry). -/
structure Item where
  id : Option String := none
  name : Option String := none
  tracks : Option (List TrackItem) := none
deriving DecidableEq, Repr

/-- A JSON response from the catalog client.  `albums`, `artists` and
`items` stand for the item arrays `albums.items`, `artists.items` and
`items` of the corresponding JSON shapes (a present field always
carries its item array); `tracks` stands for `tracks.items` of a full
album response. -/
structure Response where
  albums : Option (List Item) := none
  artists : Option (List Item) := none
  items : Option (List Item) := none
  tracks : Option (List TrackItem) := none
  id : Option String := none
  name : Option String := none
deriving DecidableEq, Repr

/-- The listing item, read back as a response object (in JS the two are
the same value; a listing item carries no `albums`/`artists`/`items`
fields of its own). -/
def Item.toResponse (it : Item) : Response :=
  { id := it.id, name := it.name, tracks := it.tracks }

/-- First element of an optional item array (`x.items[0]`). -/
def firstItem (o : Option (List Item)) : Option Item :=
  o.bind List.head?

/-- A rejection value: `Promise.reject(null)` or an error value
produced by a collaborator or by a thrown JS exception. -/
inductive RejVal
  | nullV
  | err (s : String)
deriving DecidableEq, Repr

/-- The value a `searchFor*` promise resolves with: a cached response,
the bare id, or the entry itself (`return self`). -/
inductive RVal
  | response (r : Response)
  | idVal (i : Option String)
  | self
deriving DecidableEq, Repr

/-- A console line: a plain message or a logged response object. -/
inductive LogItem
  | msg (s : String)
  | obj (r : Response)
deriving DecidableEq, Repr

instance {ε α : Type} [DecidableEq ε] [DecidableEq α] : DecidableEq (Except ε α) := fun x y =>
  match x, y with
  | .error e, .error f =>
    if h : e = f then .isTrue (by rw [h]) else .isFalse (fun c => h (Except.error.inj c))
  | .ok a, .ok b =>
    if h : a = b then .isTrue (by rw [h]) else .isFalse (fun c => h (Except.ok.inj c))
  | .error _, .ok _ => .isFalse (fun c => Except.noConfusion c)
  | .ok _, .error _ => .isFalse (fun c => Except.noConfusion c)

/-- Outcome of one `searchForAlbum`/`searchForArtist` call: the updated
entry, how many catalog search calls were issued (0 or 1), the console
output, and the settled promise. -/
structure ResolveOut (σ : Type) where
  state : σ
  calls : Nat
  log : List LogItem
  result : Except RejVal RVal
deriving DecidableEq, Repr

/-- The catalog client and comparator collaborators (`spotify.js` and
`sort.js` are outside the embedded sources; per the spec the client
fails on no-match or transport error and the album comparator is a
replaceable policy). -/
structure CatalogEnv where
  searchAlbum : String → Except RejVal Response
  getAlbum : Option String → Except RejVal Response
  searchArtist : String → Except RejVal Response
  getAlbumsByArtist : Option String → Except RejVal Response
  albumLE : Option String → Option String → Bool

/-- Modelled from the spec: the Track entry
`\x7b reference, albumTitle?, resolvedMetadata? \x7d` (`track.js` is not
among the sources). -/
structure TrackState where
  entry : String
  album : Option String := none
  response : Option TrackItem := none
deriving DecidableEq, Repr

/-- Modelled from the spec: `new Track(spotify, entry)`. -/
def Track.init (entry : String) : TrackState :=
  { entry := entry }

/-- Modelled from the spec: `track.setResponse(item)` caches the
resolved track metadata on the instance. -/
def Track.setResponse (t : TrackState) (r : TrackItem) : TrackState :=
  { t with response := some r }

/-- Modelled from the spec: `track.setAlbum(title)` records the
containing album's title. -/
def Track.setAlbum (t : TrackState) (a : String) : TrackState :=
  { t with album := some a }

/-- Modelled from the spec: `track.hasArtist(a)` holds when the track's
resolved metadata credits `a` among its artists. -/
def TrackState.hasArtist (t : TrackState) (a : String) : Bool :=
  match t.response with
  | some r => r.artists.contains a
  | none => false

/-- The `Album` entry state (`album.js` constructor fields; the
`spotify` handler lives in `CatalogEnv`). -/
structure AlbumState where
  albumResponse : Option Response := none
  entry : String
  limit : Option Int := none
  searchResponse : Option Response := none
  fetchTracks : Bool := true
  id : Option String := none
deriving DecidableEq, Repr

/-- `Album.prototype.setLimit`: only an actual integer is accepted
(`Number.isInteger`); anything else leaves `limit` unchanged. -/
def Album.setLimit (s : AlbumState) (limit : Option Int) : AlbumState :=
  match limit with
  | some n => { s with limit := some n }
  | none => s

/-- The `Album` constructor: trims the entry, takes an optional known
id, defaults `fetchTracks` to true and applies `setLimit`. -/
def Album.init (entry : String) (id : Option String) (limit : Option Int) : AlbumState :=
  Album.setLimit
    { albumResponse := none, entry := jsTrim entry, limit := none,
      searchResponse := none, fetchTracks := true, id := id }
    limit

/-- `Album.prototype.setResponse` (`album.js` lines 172-184).  In the
search-response branch the source assigns `this.id = response.id`, the
top-level id of the search response, not the first hit's id. -/
def Album.setResponse (s : AlbumState) (r : Option Response) : AlbumState :=
  match r with
  | none => s
  | some r =>
    if ((firstItem r.albums).map (fun it => strTruthy it.id)).getD false then
      { s with searchResponse := some r, id := r.id }
    else if strTruthy r.id then
      { s with albumResponse := some r, id := r.id }
    else s

/-- The `searchResponse` arm of `Album.prototype.title`. -/
def Album.titleFromSearch (s : AlbumState) : String :=
  match s.searchResponse with
  | some r =>
    match firstItem r.albums with
    | some it => if strTruthy it.name then it.name.getD "" else ""
    | none => ""
  | none => ""

/-- `Album.prototype.title` (`album.js` lines 190-202). -/
def Album.title (s : AlbumState) : String :=
  match s.albumResponse with
  | some r =>
    if strTruthy r.name then r.name.getD ""
    else Album.titleFromSearch s
  | none => Album.titleFromSearch s

/-- `Album.prototype.searchForAlbum` (`album.js` lines 127-156): the
memoization guards, the catalog search with adoption of the first
hit's id, and the failure fallback on the unanchored id-shape regex. -/
def Album.searchForAlbum (env : CatalogEnv) (s : AlbumState) : ResolveOut AlbumState :=
  match s.searchResponse with
  | some r => ⟨s, 0, [], .ok (.response r)⟩
  | none =>
    match s.albumResponse with
    | some r => ⟨s, 0, [], .ok (.response r)⟩
    | none =>
      if strTruthy s.id then ⟨s, 0, [], .ok (.idVal s.id)⟩
      else
        match env.searchAlbum s.entry with
        | .ok r =>
          let s1 := { s with searchResponse := some r }
          if ((firstItem r.albums).map (fun it => strTruthy it.id)).getD false then
            ⟨{ s1 with id := (firstItem r.albums).bind Item.id }, 1, [], .ok .self⟩
          else
            ⟨s1, 1, [], .ok .self⟩
        | .error _ =>
          if matchesIdShape s.entry then
            ⟨{ s with id := some s.entry }, 1, [], .ok (.idVal (some s.entry))⟩
          else
            ⟨s, 1, [.msg ("COULD NOT FIND " ++ s.entry)], .error .nullV⟩

/-- `Album.prototype.fetchAlbum` (`album.js` lines 97-103): fetch the
full album by id and cache it; a fetch failure propagates unchanged. -/
def Album.fetchAlbum (env : CatalogEnv) (s : AlbumState) : Except RejVal AlbumState :=
  (env.getAlbum s.id).map (fun r => { s with albumResponse := some r })

/-- `Album.prototype.createQueue` (`album.js` lines 61-74): one Track
per `albumResponse.tracks.items` element, then `slice(0, limit)` when
`limit` is truthy.  Reading `tracks.items` off a missing response is a
thrown `TypeError`, i.e. a rejection.  `Queue.slice` is modelled from
the spec (bounded slicing; `queue.js` is not among the sources) as
taking the first elements. -/
def Album.createQueue (s : AlbumState) : Except RejVal (List TrackState) :=
  match s.albumResponse with
  | none => .error (.err "TypeError")
  | some r =>
    match r.tracks with
    | none => .error (.err "TypeError")
    | some items =>
      let tracks := items.map (fun it =>
        Track.setAlbum (Track.setResponse (Track.init s.entry) it) (Album.title s))
      if intTruthy s.limit then
        .ok (tracks.take ((s.limit.getD 0).toNat))
      else
        .ok tracks

/-- The value `Album.prototype.dispatch` resolves with: a queue of
tracks, or (when `fetchTracks` is off) whatever `searchForAlbum`
resolved with. -/
inductive AlbumDispVal
  | queue (q : List TrackState)
  | rval (v : RVal)
deriving DecidableEq, Repr

/-- `Album.prototype.dispatch` (`album.js` lines 80-91):
`searchForAlbum` then `fetchAlbum` then `createQueue` when
`fetchTracks` is set, otherwise `searchForAlbum` alone; the first
rejection short-circuits the chain. -/
def Album.dispatch (env : CatalogEnv) (s : AlbumState) :
    AlbumState × Except RejVal AlbumDispVal :=
  if s.fetchTracks then
    let o := Album.searchForAlbum env s
    match o.result with
    | .error e => (o.state, .error e)
    | .ok _ =>
      match Album.fetchAlbum env o.state with
      | .error e => (o.state, .error e)
      | .ok s2 =>
        match Album.createQueue s2 with
        | .error e => (s2, .error e)
        | .ok q => (s2, .ok (.queue q))
  else
    let o := Album.searchForAlbum env s
    (o.state, o.result.map .rval)

/-- The `Artist` entry state (`artist.js` constructor fields). -/
structure ArtistState where
  artistResponse : Option Response := none
  albumsResponse : Option Response := none
  entry : String
  limit : Option Int := none
  searchResponse : Option Response := none
  id : Option String := none
deriving DecidableEq, Repr

/-- `Artist.prototype.setLimit`, identical to the album variant. -/
def Artist.setLimit (s : ArtistState) (limit : Option Int) : ArtistState :=
  match limit with
  | some n => { s with limit := some n }
  | none => s

/-- The `Artist` constructor. -/
def Artist.init (entry : String) (id : Option String) (limit : Option Int) : ArtistState :=
  Artist.setLimit
    { artistResponse := none, albumsResponse := none, entry := jsTrim entry,
      limit := none, searchResponse := none, id := id }
    limit

/-- `Artist.prototype.setResponse` (`artist.js` lines 161-176). -/
def Artist.setResponse (s : ArtistState) (r : Option Response) : ArtistState :=
  match r with
  | none => s
  | some r =>
    if ((firstItem r.artists).map (fun it => strTruthy it.id)).getD false then
      { s with searchResponse := some r, id := (firstItem r.artists).bind Item.id }
    else if strTruthy r.id then
      { s with artistResponse := some r, id := r.id }
    else if r.items.isSome then
      { s with albumsResponse := some r }
    else s

/-- `Artist.prototype.searchForArtist` (`artist.js` lines 117-145):
same shape as the album search; on search success the raw result is
logged to the console, and the failure branch rejects silently. -/
def Artist.searchForArtist (env : CatalogEnv) (s : ArtistState) : ResolveOut ArtistState :=
  match s.searchResponse with
  | some r => ⟨s, 0, [], .ok (.response r)⟩
  | none =>
    match s.artistResponse with
    | some r => ⟨s, 0, [], .ok (.response r)⟩
    | none =>
      if strTruthy s.id then ⟨s, 0, [], .ok (.idVal s.id)⟩
      else
        match env.searchArtist s.entry with
        | .ok r =>
          let s1 := { s with searchResponse := some r }
          if ((firstItem r.artists).map (fun it => strTruthy it.id)).getD false then
            ⟨{ s1 with id := (firstItem r.artists).bind Item.id }, 1, [.obj r], .ok .self⟩
          else
            ⟨s1, 1, [.obj r], .ok .self⟩
        | .error _ =>
          if matchesIdShape s.entry then
            ⟨{ s with id := some s.entry }, 1, [], .ok (.idVal (some s.entry))⟩
          else
            ⟨s, 1, [], .error .nullV⟩

/-- `Artist.prototype.fetchAlbums` (`artist.js` lines 105-111). -/
def Artist.fetchAlbums (env : CatalogEnv) (s : ArtistState) : Except RejVal ArtistState :=
  (env.getAlbumsByArtist s.id).map (fun r => { s with albumsResponse := some r })

/-- Modelled from the spec: `Queue.sort` is a stable sort by the given
comparator (`queue.js` and `sort.js` are not among the sources);
insertion sort, keeping earlier elements in front on ties. -/
def sortInsert (le : α → α → Bool) (x : α) : List α → List α
  | [] => [x]
  | y :: ys => if le x y then x :: y :: ys else y :: sortInsert le x ys

/-- Modelled from the spec: stable sort of a queue by a comparator. -/
def sortQueue (le : α → α → Bool) : List α → List α
  | [] => []
  | x :: xs => sortInsert le x (sortQueue le xs)

/-- Modelled from the spec: `Queue.flatten` splices one level of nested
queues.  The dispatch values flattened here always are queues, because
every album built during artist expansion keeps the constructor's
`fetchTracks = true`; a non-queue value contributes nothing. -/
def flattenDispVals (l : List AlbumDispVal) : List TrackState :=
  l.foldr (fun v acc =>
    match v with
    | .queue q => q ++ acc
    | .rval _ => acc) []

/-- `Artist.prototype.createQueue` (`artist.js` lines 66-86): wrap each
`albumsResponse.items` element into an Album entry, sequentially fetch
each album's full metadata (`forEachPromise`, modelled from the spec as
an in-order effectful map), sort by the album comparator, dispatch each
album, flatten one level, and keep only the tracks crediting the
artist's entry string. -/
def Artist.createQueue (env : CatalogEnv) (s : ArtistState) :
    Except RejVal (List TrackState) :=
  match s.albumsResponse with
  | none => .error (.err "TypeError")
  | some resp =>
    match resp.items with
    | none => .error (.err "TypeError")
    | some items =>
      let albums := items.map (fun it =>
        Album.setResponse (Album.init s.entry none none) (some (Item.toResponse it)))
      (albums.mapM (fun a => Album.fetchAlbum env a)).bind (fun albums2 =>
        let sorted := sortQueue (fun a b => env.albumLE a.id b.id) albums2
        (sorted.mapM (fun a =>
          match Album.dispatch env a with
          | (_, .ok v) => Except.ok v
          | (_, .error e) => Except.error e)).bind (fun vals =>
          .ok ((flattenDispVals vals).filter (fun t => TrackState.hasArtist t s.entry))))

/-- `Artist.prototype.dispatch` (`artist.js` lines 92-99):
`searchForArtist` then `fetchAlbums` then `createQueue`, the first
rejection short-circuiting the chain. -/
def Artist.dispatch (env : CatalogEnv) (s : ArtistState) :
    ArtistState × Except RejVal (List TrackState) :=
  let o := Artist.searchForArtist env s
  match o.result with
  | .error e => (o.state, .error e)
  | .ok _ =>
    match Artist.fetchAlbums env o.state with
    | .error e => (o.state, .error e)
    | .ok s2 => (s2, Artist.createQueue env s2)

/-! ## WebScraper (`src/unnamed/part_000`)

The DOM query capability is an external collaborator, so a fetched
document is modelled as the data the six strategies select from it.
String helpers below reproduce the JS built-ins the crawls use
(`URL`/`URLSearchParams` without percent-decoding, `parseInt`,
`String.prototype.replace` with a string pattern, regex `match` of the
literal patterns, which is substring search, case-insensitive under
the `i` flag). -/

/-- Whether the first list is an initial segment of the second. -/
def isLead : List Char → List Char → Bool
  | [], _ => true
  | _ :: _, [] => false
  | c :: cs, x :: xs => c == x && isLead cs xs

/-- Splitting loop: walk the characters, and at each position where
the separator starts (outside a pending skip of an already-matched
separator) close the current segment; `skip` counts separator
characters still to be consumed. -/
def splitGo (sep : List Char) : List Char → Nat → List Char → List (List Char)
  | [], _, acc => [acc.reverse]
  | _ :: xs, skip + 1, acc => splitGo sep xs skip acc
  | x :: xs, 0, acc =>
    if isLead sep (x :: xs) then
      acc.reverse :: splitGo sep xs (sep.length - 1) []
    else splitGo sep xs 0 (x :: acc)

/-- `String.prototype.split` on a string separator: the segments
between the leftmost non-overlapping occurrences (the whole string for
an empty separator, matching `String.splitOn`). -/
def splitOnStr (s sep : String) : List String :=
  if sep.data.isEmpty then [s]
  else (splitGo sep.data s.data 0 []).map (fun l => ⟨l⟩)

/-- ASCII lower-casing of a string (`toLowerCase` on the URIs the
crawl handles). -/
def lowerStr (s : String) : String :=
  ⟨s.data.map Char.toLower⟩

/-- Nonempty-pattern substring occurrence. -/
def containsSub (s pat : String) : Bool :=
  (splitOnStr s pat).length != 1

/-- Case-insensitive substring occurrence (a `/.../i` regex of a
literal pattern). -/
def containsCI (s pat : String) : Bool :=
  containsSub (lowerStr s) (lowerStr pat)

/-- `String.prototype.replace` with a string pattern: replace the first
occurrence only. -/
def replaceFirst (s pat rep : String) : String :=
  match splitOnStr s pat with
  | [] => s
  | [x] => x
  | x :: rest => x ++ rep ++ String.intercalate pat rest

/-- The query part of a URI (`new URL(u).search` without the leading
question mark): everything after the first `?`, the fragment cut off
first. -/
def queryOf (u : String) : String :=
  let base := (splitOnStr u "#").headD u
  match splitOnStr base "?" with
  | [] => ""
  | [_] => ""
  | _ :: rest => String.intercalate "?" rest

/-- `URLSearchParams` of a query string (no percent-decoding; the URIs
the crawl builds use none). -/
def parseParams (q : String) : List (String × String) :=
  (splitOnStr q "&").filterMap (fun kv =>
    if kv.data.isEmpty then none
    else
      match splitOnStr kv "=" with
      | [] => none
      | [k] => some (k, "")
      | k :: v => some (k, String.intercalate "=" v))

/-- `URLSearchParams.get`: the first value under the key, if any. -/
def getParam (ps : List (String × String)) (k : String) : Option String :=
  (ps.find? (fun p => p.1 == k)).map (fun p => p.2)

/-- `URLSearchParams.set` on the params that have the key: overwrite
the first occurrence in place and drop the others. -/
def setParamGo (k v : String) : List (String × String) → List (String × String)
  | [] => []
  | p :: ps =>
    if p.1 == k then (k, v) :: ps.filter (fun q => q.1 != k)
    else p :: setParamGo k v ps

/-- `URLSearchParams.set`: overwrite the first occurrence keeping its
position, or append when the key is absent. -/
def setParam (ps : List (String × String)) (k v : String) : List (String × String) :=
  if ps.any (fun p => p.1 == k) then setParamGo k v ps else ps ++ [(k, v)]

/-- `URLSearchParams.delete`: drop every pair under the key. -/
def delParam (ps : List (String × String)) (k : String) : List (String × String) :=
  ps.filter (fun p => p.1 != k)

/-- `URLSearchParams.toString` (no percent-encoding). -/
def paramsToString (ps : List (String × String)) : String :=
  String.intercalate "&" (ps.map (fun p => p.1 ++ "=" ++ p.2))

/-- Accumulator loop of decimal digit parsing: consume digits, stop at
the first non-digit. -/
def parseDigitsAcc (acc : Nat) : List Char → Nat
  | [] => acc
  | c :: cs => if c.isDigit then parseDigitsAcc (10 * acc + (c.toNat - 48)) cs else acc

/-- Leading decimal number of a character list, `none` when the first
character is not a digit. -/
def parseNatList : List Char → Option Nat
  | [] => none
  | c :: cs => if c.isDigit then some (parseDigitsAcc (c.toNat - 48) cs) else none

/-- JS `parseInt` in base 10: skip leading whitespace, an optional
sign, then the maximal digit prefix; `NaN` (here `none`) when no digit
follows. -/
def parseIntJS (s : String) : Option Int :=
  match s.data.dropWhile Char.isWhitespace with
  | '-' :: rest => (parseNatList rest).map (fun n => -(n : Int))
  | '+' :: rest => (parseNatList rest).map (fun n => (n : Int))
  | cs => (parseNatList cs).map (fun n => (n : Int))

/-- `parseInt` applied to a `URLSearchParams.get` result
(`parseInt(null)` is `NaN`). -/
def paramInt (v : Option String) : Option Int :=
  v.bind parseIntJS

/-- JS string conversion of a number that may be `NaN`. -/
def intOptStr : Option Int → String
  | some n => toString n
  | none => "NaN"

/-- The counting cap of the last.fm item loops: processing stops when
the running index `i` reaches the count (`if (i === nbTracks) return
false`); a `NaN` or negative count never equals the index, so the
whole list is processed. -/
def capAt (n : Option Int) (l : List α) : List α :=
  match n with
  | none => l
  | some k => if k < 0 then l else l.take k.toNat

/-- A DOM row holding a text and the `href` of the link inside it. -/
structure Row where
  text : String := ""
  href : String := ""
deriving DecidableEq, Repr

/-- A `.track-similar-tracks-item` row: credited artist and title. -/
structure SimilarTrack where
  artist : String := ""
  title : String := ""
deriving DecidableEq, Repr

/-- A fetched document, as the data each strategy's selectors read off
it: the last.fm header and row lists, the pitchfork review blocks and
the link of the pagination item after the active one, the
rateyourmusic chart rows and next link, the reddit post titles and
next button link. -/
structure Page where
  headerTitle : String := ""
  chartlistNames : List Row := []
  similarArtists : List Row := []
  similarTracks : List SimilarTrack := []
  artistWorks : List (String × String) := []
  pitchforkNext : Option String := none
  chartDetails : List (String × String) := []
  navlinkNext : Option String := none
  redditTitles : List String := []
  nextButton : Option String := none
deriving DecidableEq, Repr

/-- The scraper's external collaborators: the document fetcher and the
`util`/`urijs` helpers (`http.js`, `util.js` and the `urijs` package
are outside the embedded sources): `normalize` and `stripNoise` clean
extracted text, `absolutize` is `URI(next).absoluteTo(base)`. -/
structure WebEnv where
  http : String → Except String Page
  normalize : String → String
  stripNoise : String → String
  absolutize : String → String → String

/-- Failure of a crawl: a transport error from the fetcher, or fuel
exhaustion (the recursion would not have terminated within the given
number of pages). -/
inductive CrawlErr
  | transport (e : String)
  | fuel
deriving DecidableEq, Repr

/-- Per-page extraction of the last.fm crawl (`part_000` lines
117-193): the branch is chosen by substring tests on the resolved URI,
the count parameters are read from its query string, and the `+tracks`
and `+similar` branches push follow-up URIs. -/
def lastfmExtract (env : WebEnv) (nu : String) (page : Page) : String × List String :=
  let ps := parseParams (queryOf nu)
  let nbTracks := paramInt (getParam ps "nb_tracks")
  let nbSimilarTracks := paramInt (getParam ps "nb_similar_tracks")
  let nbSimilarArtists := paramInt (getParam ps "nb_similar_artists")
  let nbSimilarArtistsTracks := paramInt (getParam ps "nb_similar_artists_tracks")
  if containsCI nu "/+tracks" then
    let artist := env.normalize page.headerTitle
    let rows := capAt nbTracks page.chartlistNames
    let lines := String.join (rows.map (fun r =>
      artist ++ "\t-\t" ++ env.normalize r.text ++ "\n"))
    let us := rows.map (fun r =>
      "https://www.last.fm" ++ env.normalize r.href ++
        (match nbSimilarTracks with
         | some n => "?nb_similar_tracks=" ++ toString n
         | none => ""))
    let us :=
      if nbSimilarArtists.isSome then us ++ [replaceFirst nu "+tracks" "+similar"]
      else us
    (lines, us)
  else if containsCI nu "/+similar" then
    let rows := capAt nbSimilarArtists page.similarArtists
    let us := rows.map (fun r =>
      let base := "https://www.last.fm" ++ env.normalize r.href ++ "/+tracks"
      let ps2 := delParam (delParam
        (setParam ps "nb_tracks" (intOptStr nbSimilarArtistsTracks))
        "nb_similar_artists") "nb_similar_artists_tracks"
      let qs := paramsToString ps2
      if qs.data.isEmpty then base else base ++ "?" ++ qs)
    ("", us)
  else if containsCI nu "/artists" then
    (String.join (page.chartlistNames.map (fun r =>
      "#top " ++ env.normalize r.text ++ "\n")), [])
  else if containsCI nu "/albums" then
    (String.join (page.chartlistNames.map (fun r =>
      "#album " ++ env.normalize r.text ++ "\n")), [])
  else
    let rows := capAt nbSimilarTracks page.similarTracks
    (String.join (rows.map (fun st =>
      env.normalize st.artist ++ "\t-\t" ++ env.normalize st.title ++ "\n")), [])

/-- The `getPages` recursion of `WebScraper.prototype.lastfm`
(`part_000` lines 111-212), returning the accumulated buffer and the
list of URIs fetched, in order: resolve the URI, fetch, extract,
append the page's lines and follow-up URIs, then return if the work
queue is empty, else shift the queue's head and recurse with the count
fixed at 1. -/
def getPagesLF (env : WebEnv) (uri0 : String) :
    Nat → String → String → Int → List String → Except CrawlErr (String × List String)
  | 0, _, _, _, _ => .error .fuel
  | fuel + 1, nextUri, result, count, urls =>
    let nu := env.absolutize nextUri uri0
    match env.http nu with
    | .error e => .error (.transport e)
    | .ok page =>
      let ex := lastfmExtract env nu page
      let result2 := result ++ ex.1
      let urls2 := urls ++ ex.2
      if count == 1 && urls2.isEmpty then .ok (result2, [nu])
      else
        match urls2 with
        | u :: rest =>
          (getPagesLF env uri0 fuel u result2 1 rest).map (fun p => (p.1, nu :: p.2))
        | [] => .ok (result2, [nu])

/-- `WebScraper.prototype.lastfm` (`part_000` lines 108-214): default
the page count to 1 (`count || 1`) and start the recursion on the
accumulator `"#shuffle\n"` with an empty work queue. -/
def lastfm (env : WebEnv) (fuel : Nat) (uri : String) (count : Int) :
    Except CrawlErr (String × List String) :=
  getPagesLF env uri fuel uri "#shuffle\n" (if count == 0 then 1 else count) []

/-- The `getPages` recursion of `WebScraper.prototype.pitchfork`
(`part_000` lines 224-249): fetch, emit one `#album` line per review
block, then stop when the count is exactly 1, else follow the
pagination link (decrementing the count) or stop when there is none. -/
def getPagesPF (env : WebEnv) (uri0 : String) :
    Nat → String → String → Int → Except CrawlErr (String × List String)
  | 0, _, _, _ => .error .fuel
  | fuel + 1, nextUri, result, count =>
    let nu := env.absolutize nextUri uri0
    match env.http nu with
    | .error e => .error (.transport e)
    | .ok page =>
      let lines := String.join (page.artistWorks.map (fun aw =>
        "#album " ++ env.normalize aw.1 ++ "\t-\t" ++ env.normalize aw.2 ++ "\n"))
      let result2 := result ++ lines
      if count == 1 then .ok (result2, [nu])
      else
        match page.pitchforkNext with
        | some href =>
          (getPagesPF env uri0 fuel href result2 (count - 1)).map (fun p => (p.1, nu :: p.2))
        | none => .ok (result2, [nu])

/-- `WebScraper.prototype.pitchfork` (`part_000` lines 222-251): the
count defaults to 0 (`count || 0`), so an unset count never reaches
the stop-at-1 test. -/
def pitchfork (env : WebEnv) (fuel : Nat) (uri : String) (count : Int) :
    Except CrawlErr (String × List String) :=
  getPagesPF env uri fuel uri "" count

/-- The `getPages` recursion of `WebScraper.prototype.rateyourmusic`
(`part_000` lines 261-287), same control flow as pitchfork with the
chart selectors and the `a.navlinknext` next link. -/
def getPagesRYM (env : WebEnv) (uri0 : String) :
    Nat → String → String → Int → Except CrawlErr (String × List String)
  | 0, _, _, _ => .error .fuel
  | fuel + 1, nextUri, result, count =>
    let nu := env.absolutize nextUri uri0
    match env.http nu with
    | .error e => .error (.transport e)
    | .ok page =>
      let lines := String.join (page.chartDetails.map (fun cd =>
        "#album " ++ env.normalize cd.1 ++ "\t-\t" ++ env.normalize cd.2 ++ "\n"))
      let result2 := result ++ lines
      if count == 1 then .ok (result2, [nu])
      else
        match page.navlinkNext with
        | some href =>
          (getPagesRYM env uri0 fuel href result2 (count - 1)).map (fun p => (p.1, nu :: p.2))
        | none => .ok (result2, [nu])

/-- `WebScraper.prototype.rateyourmusic` (`part_000` lines 259-288),
count defaulting to 0. -/
def rateyourmusic (env : WebEnv) (fuel : Nat) (uri : String) (count : Int) :
    Except CrawlErr (String × List String) :=
  getPagesRYM env uri fuel uri "" count

/-- The `getPages` recursion of `WebScraper.prototype.reddit`
(`part_000` lines 302-363).  The branch test `uri.match(/\/comments\//gi)`
reads the original `uri`, not the page being fetched.  In the comments
branch every append goes to the callback-local `var lines` declared
further down in the same callback (JS `var` hoisting), so the page
contributes nothing to the accumulated buffer; the listing branch
emits one stripped title per `a.title` node.  Pagination is the same
stop-at-1 scheme via the `.next-button a` link. -/
def getPagesRD (env : WebEnv) (uri0 : String) :
    Nat → String → String → Int → Except CrawlErr (String × List String)
  | 0, _, _, _ => .error .fuel
  | fuel + 1, nextUri, result, count =>
    let nu := env.absolutize nextUri uri0
    match env.http nu with
    | .error e => .error (.transport e)
    | .ok page =>
      let lines :=
        if containsCI uri0 "/comments/" then ""
        else String.join (page.redditTitles.map (fun t => env.stripNoise t ++ "\n"))
      let result2 := result ++ lines
      if count == 1 then .ok (result2, [nu])
      else
        match page.nextButton with
        | some href =>
          (getPagesRD env uri0 fuel href result2 (count - 1)).map (fun p => (p.1, nu :: p.2))
        | none => .ok (result2, [nu])

/-- `WebScraper.prototype.reddit` (`part_000` lines 300-365), count
defaulting to 1 (`count || 1`). -/
def reddit (env : WebEnv) (fuel : Nat) (uri : String) (count : Int) :
    Except CrawlErr (String × List String) :=
  getPagesRD env uri fuel uri "" (if count == 0 then 1 else count)

/-- The six extraction strategies `scrape` can dispatch to. -/
inductive Strategy
  | lastfmS
  | pitchforkS
  | rateyourmusicS
  | redditS
  | youtubeS
  | webpageS
deriving DecidableEq, Repr

/-- The fixed table of known hosts of `WebScraper.prototype.scrape`. -/
def knownHosts : List String :=
  ["last.fm", "pitchfork.com", "rateyourmusic.com", "reddit.com", "youtube.com"]

/-- `WebScraper.prototype.scrape` (`part_000` lines 64-79): the
domain is extracted from the URI by the `urijs` collaborator; this is
the subsequent dispatch of the extracted domain through the host
table, falling through to the generic `webpage` strategy. -/
def scrape (domain : String) : Strategy :=
  if domain == "last.fm" then .lastfmS
  else if domain == "pitchfork.com" then .pitchforkS
  else if domain == "rateyourmusic.com" then .rateyourmusicS
  else if domain == "reddit.com" then .redditS
  else if domain == "youtube.com" then .youtubeS
  else .webpageS

/-- Whether a rejection value carries (mentions) a given reference
string: a `null` rejection carries nothing, an error value carries the
reference when it occurs in its text. -/
def rejCarries (v : RejVal) (e : String) : Bool :=
  match v with
  | .nullV => false
  | .err s => containsSub s e

/-! ## Concrete instances used by witnesses and counterexamples -/

/-- A catalog environment whose every operation fails with a transport
error. -/
def envFail : CatalogEnv :=
  { searchAlbum := fun _ => .error (.err "network"),
    getAlbum := fun _ => .error (.err "network"),
    searchArtist := fun _ => .error (.err "network"),
    getAlbumsByArtist := fun _ => .error (.err "network"),
    albumLE := fun _ _ => true }

/-- A fresh album entry whose reference does not end in an
alphanumeric character. -/
def albumNoShape : AlbumState := Album.init "???" none none

/-- A fresh artist entry whose reference does not end in an
alphanumeric character. -/
def artistNoShape : ArtistState := Artist.init "???" none none

/-- A fresh album entry whose reference ends in an alphanumeric
character without being an alphanumeric identifier. -/
def albumHelloWorld : AlbumState := Album.init "hello world" none none

/-- An album entry that already knows its id. -/
def albumWithId : AlbumState := Album.init "E" (some "X") none

/-- A full album response carrying a different id. -/
def respOtherId : Response := { id := some "Y" }

/-- A track of the one-track album, credited to `E`. -/
def trackE : TrackItem := { id := some "t1", name := some "T1", artists := ["E"] }

/-- The one-track full album response of the limit counterexample. -/
def respAlb1 : Response :=
  { id := some "A1", name := some "Alb", tracks := some [trackE] }

/-- An album entry with a cached one-track full response and the
result limit set to 0. -/
def albumLimit0 : AlbumState :=
  { entry := "E", limit := some 0, albumResponse := some respAlb1 }

/-- The track entry the one-track album expands into. -/
def trackEOut : TrackState :=
  { entry := "E", album := some "Alb", response := some trackE }

/-- Tracks of the artist-expansion witness album: one credited to the
requested artist `A`, one to somebody else. -/
def trackA : TrackItem := { id := some "t1", name := some "T1", artists := ["A"] }

/-- The cross-contaminated track of the witness album. -/
def trackB : TrackItem := { id := some "t2", name := some "T2", artists := ["B"] }

/-- The two-track full album response of the limit witness. -/
def respAlb2 : Response :=
  { id := some "A1", name := some "Alb", tracks := some [trackE, trackB] }

/-- An album entry with a cached two-track full response and the
result limit set to 1. -/
def albumLimit1 : AlbumState :=
  { entry := "E", limit := some 1, albumResponse := some respAlb2 }

/-- The album listing returned for the witness artist. -/
def respAlbumsList : Response :=
  { items := some [{ id := some "al1", name := some "Album1" }] }

/-- The full metadata of the witness album. -/
def respFullAl1 : Response :=
  { id := some "al1", name := some "Album1", tracks := some [trackA, trackB] }

/-- The catalog environment of the artist-expansion witness. -/
def envArtistRun : CatalogEnv :=
  { searchAlbum := fun _ => .error (.err "network"),
    getAlbum := fun i => if i == some "al1" then .ok respFullAl1 else .error (.err "network"),
    searchArtist := fun _ => .error (.err "network"),
    getAlbumsByArtist := fun i =>
      if i == some "aid" then .ok respAlbumsList else .error (.err "network"),
    albumLE := fun _ _ => true }

/-- The witness artist entry, with a known id. -/
def artistA : ArtistState := Artist.init "A" (some "aid") none

/-- The track surviving the artist-expansion filter. -/
def trackAOut : TrackState :=
  { entry := "A", album := some "Album1", response := some trackA }

/-- The witness artist entry after its dispatch completed. -/
def artistAFinal : ArtistState :=
  { artistResponse := none, albumsResponse := some respAlbumsList, entry := "A",
    limit := none, searchResponse := none, id := some "aid" }

/-- Start URI of the branching-crawl scenario: a last.fm artist
track listing. -/
def lfUri : String := "https://www.last.fm/music/AAA/+tracks"

/-- First follow-up URI pushed by the scenario's source page. -/
def lfU1 : String := "https://www.last.fm/music/AAA/_/s1"

/-- Second follow-up URI pushed by the scenario's source page. -/
def lfU2 : String := "https://www.last.fm/music/AAA/_/s2"

/-- The scenario's source page: two track rows. -/
def lfPage0 : Page :=
  { headerTitle := "AAA",
    chartlistNames := [{ text := "s1", href := "/music/AAA/_/s1" },
                       { text := "s2", href := "/music/AAA/_/s2" }] }

/-- The first follow-up page: one similar track. -/
def lfPage1 : Page := { similarTracks := [{ artist := "SimA", title := "x1" }] }

/-- The second follow-up page: one similar track. -/
def lfPage2 : Page := { similarTracks := [{ artist := "SimB", title := "x2" }] }

/-- The branching-crawl scenario environment: the three pages above,
identity text cleanup, URIs already absolute. -/
def envLF : WebEnv :=
  { http := fun u =>
      if u == lfUri then .ok lfPage0
      else if u == lfU1 then .ok lfPage1
      else if u == lfU2 then .ok lfPage2
      else .error "404",
    normalize := fun s => s,
    stripNoise := fun s => s,
    absolutize := fun n _ => n }

/-- The buffer accumulated by the branching-crawl scenario. -/
def lfResult : String :=
  "#shuffle\nAAA\t-\ts1\nAAA\t-\ts2\nSimA\t-\tx1\nSimB\t-\tx2\n"

/-- The buffer accumulated by the branching-crawl scenario after its
source page alone. -/
def lfMid : String := "#shuffle\nAAA\t-\ts1\nAAA\t-\ts2\n"

/-- The buffer produced by the shuffle-directive witness crawl. -/
def lfAlbumsResult : String := "#shuffle\n#album B - X\n"

/-- Start URI of the shuffle-directive witness: a last.fm albums
chart. -/
def lfAlbumsUri : String := "https://www.last.fm/tag/rock/albums"

/-- The single page of the shuffle-directive witness. -/
def lfAlbumsPage : Page := { chartlistNames := [{ text := "B - X" }] }

/-- The environment of the shuffle-directive witness. -/
def envLFAlbums : WebEnv :=
  { http := fun u => if u == lfAlbumsUri then .ok lfAlbumsPage else .error "404",
    normalize := fun s => s,
    stripNoise := fun s => s,
    absolutize := fun n _ => n }

/-- The three pages of the linear-pagination scenario. -/
def linU1 : String := "https://site/p1"

/-- Second page URI of the linear-pagination scenario. -/
def linU2 : String := "https://site/p2"

/-- Third page URI of the linear-pagination scenario. -/
def linU3 : String := "https://site/p3"

/-- First page: one item, and a next link for every strategy. -/
def linP1 : Page :=
  { artistWorks := [("A1", "B1")], pitchforkNext := some linU2,
    chartDetails := [("A1", "B1")], navlinkNext := some linU2,
    redditTitles := ["R1"], nextButton := some linU2 }

/-- Second page: one item, and a next link to the third page. -/
def linP2 : Page :=
  { artistWorks := [("A2", "B2")], pitchforkNext := some linU3,
    chartDetails := [("A2", "B2")], navlinkNext := some linU3,
    redditTitles := ["R2"], nextButton := some linU3 }

/-- Third page: one item, no next link. -/
def linP3 : Page :=
  { artistWorks := [("A3", "B3")], chartDetails := [("A3", "B3")],
    redditTitles := ["R3"] }

/-- The linear-pagination scenario environment. -/
def envLin : WebEnv :=
  { http := fun u =>
      if u == linU1 then .ok linP1
      else if u == linU2 then .ok linP2
      else if u == linU3 then .ok linP3
      else .error "404",
    normalize := fun s => s,
    stripNoise := fun s => s,
    absolutize := fun n _ => n }

/-! ## Helper lemmas -/

/-- A reference matching the unanchored id-shape regex is nonempty,
hence truthy. -/
theorem strTruthy_of_matchesIdShape (s : String) (h : matchesIdShape s = true) :
    strTruthy (some s) = true := by
  unfold matchesIdShape at h
  unfold strTruthy
  cases hc : s.toList with
  | nil => rw [hc] at h; simp at h
  | cons x xs =>
    have hd : s.data = x :: xs := hc
    simp [hd]

/-- The spec's all-alphanumeric shape implies the source's unanchored
regex shape. -/
theorem matchesIdShape_of_specIdShape (s : String) (h : specIdShape s = true) :
    matchesIdShape s = true := by
  unfold specIdShape at h
  unfold matchesIdShape
  have h' : (!s.toList.isEmpty) = true ∧ s.toList.all isAsciiAlnum = true := by
    simpa using h
  rcases h' with ⟨h1, h2⟩
  cases hr : s.toList.reverse with
  | nil =>
    have hz : s.toList = [] := by
      have := congrArg List.reverse hr
      simpa using this
    rw [hz] at h1
    simp at h1
  | cons c cs =>
    have hc : c ∈ s.toList := by
      have : c ∈ s.toList.reverse := by rw [hr]; exact List.mem_cons_self _ _
      exact List.mem_reverse.mp this
    have := List.all_eq_true.mp h2 c hc
    simpa using this

/-- Destructor for a successful `Except.bind`. -/
theorem except_bind_ok {ε α β : Type} (x : Except ε α) (f : α → Except ε β) (b : β)
    (h : x.bind f = .ok b) : ∃ a, x = .ok a ∧ f a = .ok b := by
  cases x with
  | error e => exact Except.noConfusion h
  | ok a => exact ⟨a, rfl, h⟩

/-- A `searchForAlbum` call with a cached response or truthy id issues
no catalog call and leaves the entry untouched. -/
theorem album_search_cached (env : CatalogEnv) (s : AlbumState)
    (h : s.searchResponse.isSome ∨ s.albumResponse.isSome ∨ strTruthy s.id = true) :
    (Album.searchForAlbum env s).calls = 0 ∧ (Album.searchForAlbum env s).state = s := by
  unfold Album.searchForAlbum
  cases hs : s.searchResponse with
  | some r => exact ⟨rfl, rfl⟩
  | none =>
    cases ha : s.albumResponse with
    | some r => exact ⟨rfl, rfl⟩
    | none =>
      have hid : strTruthy s.id = true := by
        rcases h with h | h | h
        · rw [hs] at h; simp at h
        · rw [ha] at h; simp at h
        · exact h
      simp [hid]

/-- After a `searchForAlbum` call that resolves, the entry is in a
cached state: a search response, an album response, or a truthy id. -/
theorem album_search_ok_cached (env : CatalogEnv) (s : AlbumState) (v : RVal)
    (h : (Album.searchForAlbum env s).result = .ok v) :
    (Album.searchForAlbum env s).state.searchResponse.isSome ∨
    (Album.searchForAlbum env s).state.albumResponse.isSome ∨
    strTruthy (Album.searchForAlbum env s).state.id = true := by
  unfold Album.searchForAlbum at h ⊢
  cases hs : s.searchResponse with
  | some r => simp [hs]
  | none =>
    rw [hs] at h
    cases ha : s.albumResponse with
    | some r => simp [ha]
    | none =>
      rw [ha] at h
      by_cases hid : strTruthy s.id = true
      · simp [hid]
      · rw [Bool.not_eq_true] at hid
        simp only [hid] at h ⊢
        cases he : env.searchAlbum s.entry with
        | ok r =>
          simp only [he]
          by_cases hg : (((firstItem r.albums).map (fun it => strTruthy it.id)).getD false) = true
          · simp [hg]
          · rw [Bool.not_eq_true] at hg
            simp [hg]
        | error e =>
          rw [he] at h
          simp only [he]
          by_cases hm : matchesIdShape s.entry = true
          · simp only [hm, if_true]
            right; right
            exact strTruthy_of_matchesIdShape s.entry hm
          · rw [Bool.not_eq_true] at hm
            simp only [hm] at h
            simp at h

/-- `searchForAlbum` with a cached response or truthy id does not
change the entry (restatement of `album_search_cached` used for id
preservation). -/
theorem album_search_state_of_id (env : CatalogEnv) (s : AlbumState)
    (h : strTruthy s.id = true) : (Album.searchForAlbum env s).state = s :=
  (album_search_cached env s (Or.inr (Or.inr h))).2

/-- The artist analogue of `album_search_cached`. -/
theorem artist_search_cached (env : CatalogEnv) (s : ArtistState)
    (h : s.searchResponse.isSome ∨ s.artistResponse.isSome ∨ strTruthy s.id = true) :
    (Artist.searchForArtist env s).calls = 0 ∧ (Artist.searchForArtist env s).state = s := by
  unfold Artist.searchForArtist
  cases hs : s.searchResponse with
  | some r => exact ⟨rfl, rfl⟩
  | none =>
    cases ha : s.artistResponse with
    | some r => exact ⟨rfl, rfl⟩
    | none =>
      have hid : strTruthy s.id = true := by
        rcases h with h | h | h
        · rw [hs] at h; simp at h
        · rw [ha] at h; simp at h
        · exact h
      simp [hid]

/-- The artist analogue of `album_search_ok_cached`. -/
theorem artist_search_ok_cached (env : CatalogEnv) (s : ArtistState) (v : RVal)
    (h : (Artist.searchForArtist env s).result = .ok v) :
    (Artist.searchForArtist env s).state.searchResponse.isSome ∨
    (Artist.searchForArtist env s).state.artistResponse.isSome ∨
    strTruthy (Artist.searchForArtist env s).state.id = true := by
  unfold Artist.searchForArtist at h ⊢
  cases hs : s.searchResponse with
  | some r => simp [hs]
  | none =>
    rw [hs] at h
    cases ha : s.artistResponse with
    | some r => simp [ha]
    | none =>
      rw [ha] at h
      by_cases hid : strTruthy s.id = true
      · simp [hid]
      · rw [Bool.not_eq_true] at hid
        simp only [hid] at h ⊢
        cases he : env.searchArtist s.entry with
        | ok r =>
          simp only [he]
          by_cases hg : (((firstItem r.artists).map (fun it => strTruthy it.id)).getD false) = true
          · simp [hg]
          · rw [Bool.not_eq_true] at hg
            simp [hg]
        | error e =>
          rw [he] at h
          simp only [he]
          by_cases hm : matchesIdShape s.entry = true
          · simp only [hm, if_true]
            right; right
            exact strTruthy_of_matchesIdShape s.entry hm
          · rw [Bool.not_eq_true] at hm
            simp only [hm] at h
            simp at h

/-- The artist analogue of `album_search_state_of_id`. -/
theorem artist_search_state_of_id (env : CatalogEnv) (s : ArtistState)
    (h : strTruthy s.id = true) : (Artist.searchForArtist env s).state = s :=
  (artist_search_cached env s (Or.inr (Or.inr h))).2

/-- A successful `fetchAlbum` only fills `albumResponse`. -/
theorem album_fetch_shape (env : CatalogEnv) (s s2 : AlbumState)
    (h : Album.fetchAlbum env s = .ok s2) :
    ∃ r, s2 = { s with albumResponse := some r } := by
  unfold Album.fetchAlbum at h
  cases he : env.getAlbum s.id with
  | error e => rw [he] at h; exact Except.noConfusion h
  | ok r =>
    rw [he] at h
    have h' : Except.ok (ε := RejVal) { s with albumResponse := some r } = .ok s2 := h
    exact ⟨r, (Except.ok.inj h').symm⟩

/-- A successful `fetchAlbums` only fills `albumsResponse`. -/
theorem artist_fetch_shape (env : CatalogEnv) (s s2 : ArtistState)
    (h : Artist.fetchAlbums env s = .ok s2) :
    ∃ r, s2 = { s with albumsResponse := some r } := by
  unfold Artist.fetchAlbums at h
  cases he : env.getAlbumsByArtist s.id with
  | error e => rw [he] at h; exact Except.noConfusion h
  | ok r =>
    rw [he] at h
    have h' : Except.ok (ε := RejVal) { s with albumsResponse := some r } = .ok s2 := h
    exact ⟨r, (Except.ok.inj h').symm⟩

/-- `searchForArtist` never changes the entry string. -/
theorem artist_search_entry (env : CatalogEnv) (s : ArtistState) :
    (Artist.searchForArtist env s).state.entry = s.entry := by
  unfold Artist.searchForArtist
  cases hs : s.searchResponse with
  | some r => rfl
  | none =>
    cases ha : s.artistResponse with
    | some r => rfl
    | none =>
      by_cases hid : strTruthy s.id = true
      · simp [hid]
      · rw [Bool.not_eq_true] at hid
        simp only [hid]
        cases he : env.searchArtist s.entry with
        | ok r =>
          dsimp only
          by_cases hg :
              (((firstItem r.artists).map (fun it => strTruthy it.id)).getD false) = true
          · simp [hg]
          · rw [Bool.not_eq_true] at hg
            simp [hg]
        | error e =>
          by_cases hm : matchesIdShape s.entry = true
          · simp [hm]
          · rw [Bool.not_eq_true] at hm
            simp [hm]

/-- Destructor for a successful `Except.map`. -/
theorem except_map_ok {ε α β : Type} (x : Except ε α) (f : α → β) (b : β)
    (h : x.map f = .ok b) : ∃ a, x = .ok a ∧ f a = b := by
  cases x with
  | error e => exact Except.noConfusion h
  | ok a => exact ⟨a, rfl, Except.ok.inj h⟩

/-- The count argument never changes the outcome of the last.fm
recursion: an empty work queue returns the buffer whatever the count
is, and a nonempty queue always recurses with the count fixed at 1. -/
theorem getPagesLF_count_irrelevant :
    ∀ (fuel : Nat) (env : WebEnv) (uri0 nextUri result : String) (c c' : Int)
      (urls : List String),
      getPagesLF env uri0 fuel nextUri result c urls =
        getPagesLF env uri0 fuel nextUri result c' urls := by
  intro fuel
  induction fuel with
  | zero => intro env uri0 nextUri result c c' urls; rfl
  | succ n ih =>
    intro env uri0 nextUri result c c' urls
    unfold getPagesLF
    dsimp only
    cases hh : env.http (env.absolutize nextUri uri0) with
    | error e => rfl
    | ok page =>
      dsimp only
      cases hu : urls ++ (lastfmExtract env (env.absolutize nextUri uri0) page).2 with
      | nil => simp
      | cons u rest => simp

/-- A successful last.fm recursion reports the resolved start URI as
the first visited page. -/
theorem getPagesLF_visits_head :
    ∀ (fuel : Nat) (env : WebEnv) (uri0 nextUri result : String) (c : Int)
      (urls : List String) (r : String) (vs : List String),
      getPagesLF env uri0 fuel nextUri result c urls = .ok (r, vs) →
      ∃ t, vs = env.absolutize nextUri uri0 :: t := by
  intro fuel env uri0 nextUri result c urls r vs h
  cases fuel with
  | zero => exact Except.noConfusion h
  | succ n =>
    unfold getPagesLF at h
    dsimp only at h
    cases hh : env.http (env.absolutize nextUri uri0) with
    | error e => rw [hh] at h; exact Except.noConfusion h
    | ok page =>
      rw [hh] at h
      dsimp only at h
      split at h
      · have h' := Except.ok.inj h
        exact ⟨[], (congrArg Prod.snd h').symm⟩
      · split at h
        next u rest heq =>
          rcases except_map_ok _ _ _ h with ⟨p, hrec, hfp⟩
          exact ⟨p.2, (congrArg Prod.snd hfp).symm⟩
        next heq =>
          have h' := Except.ok.inj h
          exact ⟨[], (congrArg Prod.snd h').symm⟩

/-- Every URI pending in the work queue of a successful last.fm
recursion is eventually fetched. -/
theorem getPagesLF_drains :
    ∀ (fuel : Nat) (env : WebEnv) (uri0 nextUri result : String) (c : Int)
      (urls : List String) (r : String) (vs : List String),
      getPagesLF env uri0 fuel nextUri result c urls = .ok (r, vs) →
      ∀ u ∈ urls, env.absolutize u uri0 ∈ vs := by
  intro fuel
  induction fuel with
  | zero =>
    intro env uri0 nextUri result c urls r vs h
    exact Except.noConfusion h
  | succ n ih =>
    intro env uri0 nextUri result c urls r vs h u hu
    unfold getPagesLF at h
    dsimp only at h
    cases hh : env.http (env.absolutize nextUri uri0) with
    | error e => rw [hh] at h; exact Except.noConfusion h
    | ok page =>
      rw [hh] at h
      dsimp only at h
      split at h
      next hcond =>
        rw [Bool.and_eq_true] at hcond
        obtain ⟨-, hemp⟩ := hcond
        rw [List.isEmpty_iff] at hemp
        rcases List.append_eq_nil.mp hemp with ⟨h1, -⟩
        rw [h1] at hu
        cases hu
      next =>
        split at h
        next u' rest heq =>
          rcases except_map_ok _ _ _ h with ⟨p, hrec, hfp⟩
          have hvs : env.absolutize nextUri uri0 :: p.2 = vs := congrArg Prod.snd hfp
          have hmem : u ∈ u' :: rest := by
            rw [← heq]
            exact List.mem_append_left _ hu
          rcases List.mem_cons.mp hmem with h1 | h1
          · subst h1
            rcases getPagesLF_visits_head n env uri0 u _ 1 rest p.1 p.2
              (by rw [hrec]) with ⟨t, ht⟩
            rw [← hvs, ht]
            exact List.mem_cons_of_mem _ (List.mem_cons_self _ _)
          · have := ih env uri0 u' _ 1 rest p.1 p.2 (by rw [hrec]) u h1
            rw [← hvs]
            exact List.mem_cons_of_mem _ this
        next heq =>
          rcases List.append_eq_nil.mp heq with ⟨h1, -⟩
          rw [h1] at hu
          cases hu

/-- The buffer only grows: a successful last.fm recursion returns an
extension of its accumulator. -/
theorem getPagesLF_acc_grows :
    ∀ (fuel : Nat) (env : WebEnv) (uri0 nextUri result : String) (c : Int)
      (urls : List String) (r : String) (vs : List String),
      getPagesLF env uri0 fuel nextUri result c urls = .ok (r, vs) →
      ∃ t, r = result ++ t := by
  intro fuel
  induction fuel with
  | zero =>
    intro env uri0 nextUri result c urls r vs h
    exact Except.noConfusion h
  | succ n ih =>
    intro env uri0 nextUri result c urls r vs h
    unfold getPagesLF at h
    dsimp only at h
    cases hh : env.http (env.absolutize nextUri uri0) with
    | error e => rw [hh] at h; exact Except.noConfusion h
    | ok page =>
      rw [hh] at h
      dsimp only at h
      split at h
      · have h' := Except.ok.inj h
        exact ⟨_, (congrArg Prod.fst h').symm⟩
      · split at h
        next u rest heq =>
          rcases except_map_ok _ _ _ h with ⟨p, hrec, hfp⟩
          rcases ih env uri0 u _ 1 rest p.1 p.2 (by rw [hrec]) with ⟨t, ht⟩
          refine ⟨(lastfmExtract env (env.absolutize nextUri uri0) page).1 ++ t, ?_⟩
          have hr : p.1 = r := congrArg Prod.fst hfp
          rw [← hr, ht, String.append_assoc]
        next heq =>
          have h' := Except.ok.inj h
          exact ⟨_, (congrArg Prod.fst h').symm⟩

/-- Page bound of the pitchfork recursion: with a positive count a
successful crawl fetches at most count pages. -/
theorem getPagesPF_bound :
    ∀ (fuel : Nat) (env : WebEnv) (uri0 nextUri result : String) (c : Int)
      (r : String) (vs : List String), 1 ≤ c →
      getPagesPF env uri0 fuel nextUri result c = .ok (r, vs) →
      vs.length ≤ c.toNat := by
  intro fuel
  induction fuel with
  | zero =>
    intro env uri0 nextUri result c r vs hc h
    exact Except.noConfusion h
  | succ n ih =>
    intro env uri0 nextUri result c r vs hc h
    unfold getPagesPF at h
    dsimp only at h
    cases hh : env.http (env.absolutize nextUri uri0) with
    | error e => rw [hh] at h; exact Except.noConfusion h
    | ok page =>
      rw [hh] at h
      dsimp only at h
      split at h
      next hone =>
        have h' := Except.ok.inj h
        have hvs : vs = [env.absolutize nextUri uri0] := (congrArg Prod.snd h').symm
        have hc1 : c = 1 := by simpa using hone
        rw [hvs, hc1]
        simp
      next hone =>
        have hne : ¬c = 1 := by simpa using hone
        split at h
        next href heq =>
          rcases except_map_ok _ _ _ h with ⟨p, hrec, hfp⟩
          have h2 := ih env uri0 href _ (c - 1) p.1 p.2 (by omega) (by rw [hrec])
          have hvs : vs = env.absolutize nextUri uri0 :: p.2 := (congrArg Prod.snd hfp).symm
          rw [hvs]
          simp only [List.length_cons]
          omega
        next heq =>
          have h' := Except.ok.inj h
          have hvs : vs = [env.absolutize nextUri uri0] := (congrArg Prod.snd h').symm
          rw [hvs]
          simp only [List.length_cons, List.length_nil]
          omega

/-- Page bound of the rateyourmusic recursion. -/
theorem getPagesRYM_bound :
    ∀ (fuel : Nat) (env : WebEnv) (uri0 nextUri result : String) (c : Int)
      (r : String) (vs : List String), 1 ≤ c →
      getPagesRYM env uri0 fuel nextUri result c = .ok (r, vs) →
      vs.length ≤ c.toNat := by
  intro fuel
  induction fuel with
  | zero =>
    intro env uri0 nextUri result c r vs hc h
    exact Except.noConfusion h
  | succ n ih =>
    intro env uri0 nextUri result c r vs hc h
    unfold getPagesRYM at h
    dsimp only at h
    cases hh : env.http (env.absolutize nextUri uri0) with
    | error e => rw [hh] at h; exact Except.noConfusion h
    | ok page =>
      rw [hh] at h
      dsimp only at h
      split at h
      next hone =>
        have h' := Except.ok.inj h
        have hvs : vs = [env.absolutize nextUri uri0] := (congrArg Prod.snd h').symm
        have hc1 : c = 1 := by simpa using hone
        rw [hvs, hc1]
        simp
      next hone =>
        have hne : ¬c = 1 := by simpa using hone
        split at h
        next href heq =>
          rcases except_map_ok _ _ _ h with ⟨p, hrec, hfp⟩
          have h2 := ih env uri0 href _ (c - 1) p.1 p.2 (by omega) (by rw [hrec])
          have hvs : vs = env.absolutize nextUri uri0 :: p.2 := (congrArg Prod.snd hfp).symm
          rw [hvs]
          simp only [List.length_cons]
          omega
        next heq =>
          have h' := Except.ok.inj h
          have hvs : vs = [env.absolutize nextUri uri0] := (congrArg Prod.snd h').symm
          rw [hvs]
          simp only [List.length_cons, List.length_nil]
          omega

/-- Page bound of the reddit recursion. -/
theorem getPagesRD_bound :
    ∀ (fuel : Nat) (env : WebEnv) (uri0 nextUri result : String) (c : Int)
      (r : String) (vs : List String), 1 ≤ c →
      getPagesRD env uri0 fuel nextUri result c = .ok (r, vs) →
      vs.length ≤ c.toNat := by
  intro fuel
  induction fuel with
  | zero =>
    intro env uri0 nextUri result c r vs hc h
    exact Except.noConfusion h
  | succ n ih =>
    intro env uri0 nextUri result c r vs hc h
    unfold getPagesRD at h
    dsimp only at h
    cases hh : env.http (env.absolutize nextUri uri0) with
    | error e => rw [hh] at h; exact Except.noConfusion h
    | ok page =>
      rw [hh] at h
      dsimp only at h
      split at h
      next hone =>
        have h' := Except.ok.inj h
        have hvs : vs = [env.absolutize nextUri uri0] := (congrArg Prod.snd h').symm
        have hc1 : c = 1 := by simpa using hone
        rw [hvs, hc1]
        simp
      next hone =>
        have hne : ¬c = 1 := by simpa using hone
        split at h
        next href heq =>
          rcases except_map_ok _ _ _ h with ⟨p, hrec, hfp⟩
          have h2 := ih env uri0 href _ (c - 1) p.1 p.2 (by omega) (by rw [hrec])
          have hvs : vs = env.absolutize nextUri uri0 :: p.2 := (congrArg Prod.snd hfp).symm
          rw [hvs]
          simp only [List.length_cons]
          omega
        next heq =>
          have h' := Except.ok.inj h
          have hvs : vs = [env.absolutize nextUri uri0] := (congrArg Prod.snd h').symm
          rw [hvs]
          simp only [List.length_cons, List.length_nil]
          omega


/-! ## Claims about entry resolution -/

/-- C1 counterexample: reading "matches an alphanumeric identifier
shape" as the reference being an alphanumeric identifier, the claim
fails on the code: the reference `hello world` does not match that
shape, yet when the search fails the resolution succeeds and adopts
the reference as the id instead of failing with a not-found
rejection. -/
theorem c1_counterexample :
    specIdShape albumHelloWorld.entry = false ∧
    (Album.searchForAlbum envFail albumHelloWorld).result =
      .ok (.idVal (some "hello world")) ∧
    (Album.searchForAlbum envFail albumHelloWorld).state.id = some "hello world" := by
  decide

/-- C1 (amended): for an entry with no cached id or result whose
catalog search fails, the fallback applies exactly when the reference
matches the source's unanchored regex — it ends in an alphanumeric
character; in particular every all-alphanumeric reference qualifies —
in which case resolution succeeds and the entry adopts the reference
as its id; otherwise resolution fails with a null not-found
rejection. -/
theorem c1_fallback_heuristic :
    (∀ s : String, specIdShape s = true → matchesIdShape s = true) ∧
    (∀ (env : CatalogEnv) (s : AlbumState) (e : RejVal),
      s.searchResponse = none → s.albumResponse = none → strTruthy s.id = false →
      env.searchAlbum s.entry = .error e →
      (matchesIdShape s.entry = true →
        Album.searchForAlbum env s =
          ⟨{ s with id := some s.entry }, 1, [], .ok (.idVal (some s.entry))⟩) ∧
      (matchesIdShape s.entry = false →
        Album.searchForAlbum env s =
          ⟨s, 1, [.msg ("COULD NOT FIND " ++ s.entry)], .error .nullV⟩)) ∧
    (∀ (env : CatalogEnv) (s : ArtistState) (e : RejVal),
      s.searchResponse = none → s.artistResponse = none → strTruthy s.id = false →
      env.searchArtist s.entry = .error e →
      (matchesIdShape s.entry = true →
        Artist.searchForArtist env s =
          ⟨{ s with id := some s.entry }, 1, [], .ok (.idVal (some s.entry))⟩) ∧
      (matchesIdShape s.entry = false →
        Artist.searchForArtist env s = ⟨s, 1, [], .error .nullV⟩)) := by
  refine ⟨matchesIdShape_of_specIdShape, ?_, ?_⟩
  · intro env s e h1 h2 h3 h4
    constructor <;> intro hm <;>
      simp [Album.searchForAlbum, h1, h2, h3, h4, hm]
  · intro env s e h1 h2 h3 h4
    constructor <;> intro hm <;>
      simp [Artist.searchForArtist, h1, h2, h3, h4, hm]

/-- C1 witness: the two fallback branches at the concrete references
`hello world` (shape matched, search fails, id adopted) and `???`
(shape not matched, not-found rejection). -/
theorem c1_fallback_heuristic_witness :
    Album.searchForAlbum envFail albumHelloWorld =
      ⟨{ albumHelloWorld with id := some albumHelloWorld.entry }, 1, [],
        .ok (.idVal (some albumHelloWorld.entry))⟩ ∧
    Artist.searchForArtist envFail artistNoShape =
      ⟨artistNoShape, 1, [], .error .nullV⟩ := by
  constructor
  · exact (c1_fallback_heuristic.2.1 envFail albumHelloWorld (.err "network")
      rfl rfl (by decide) rfl).1 (by decide)
  · exact (c1_fallback_heuristic.2.2 envFail artistNoShape (.err "network")
      rfl rfl (by decide) rfl).2 (by decide)

/-- C2 counterexample: an entry whose catalog search fails and whose
reference does not match the fallback shape caches nothing, so calling
`searchForAlbum` twice issues two catalog search calls, not at most
one. -/
theorem c2_counterexample :
    (Album.searchForAlbum envFail albumNoShape).calls +
      (Album.searchForAlbum envFail
        (Album.searchForAlbum envFail albumNoShape).state).calls = 2 ∧
    ¬((Album.searchForAlbum envFail albumNoShape).calls +
      (Album.searchForAlbum envFail
        (Album.searchForAlbum envFail albumNoShape).state).calls ≤ 1) := by
  decide

/-- C2 (amended): resolution is memoized on success.  An entry holding
a cached search/full result or a truthy id resolves immediately with
no catalog call and unchanged state; and after any call that resolves
successfully, a repeated call issues no catalog call and leaves the
state — hence the id — unchanged.  Only a call that rejects (search
failed, fallback inapplicable) caches nothing, and a repeat then
re-issues the search. -/
theorem c2_resolution_memoized :
    (∀ (env : CatalogEnv) (s : AlbumState),
      s.searchResponse.isSome ∨ s.albumResponse.isSome ∨ strTruthy s.id = true →
      (Album.searchForAlbum env s).calls = 0 ∧
      (Album.searchForAlbum env s).state = s) ∧
    (∀ (env : CatalogEnv) (s : AlbumState) (v : RVal),
      (Album.searchForAlbum env s).result = .ok v →
      (Album.searchForAlbum env (Album.searchForAlbum env s).state).calls = 0 ∧
      (Album.searchForAlbum env (Album.searchForAlbum env s).state).state =
        (Album.searchForAlbum env s).state) ∧
    (∀ (env : CatalogEnv) (s : ArtistState),
      s.searchResponse.isSome ∨ s.artistResponse.isSome ∨ strTruthy s.id = true →
      (Artist.searchForArtist env s).calls = 0 ∧
      (Artist.searchForArtist env s).state = s) ∧
    (∀ (env : CatalogEnv) (s : ArtistState) (v : RVal),
      (Artist.searchForArtist env s).result = .ok v →
      (Artist.searchForArtist env (Artist.searchForArtist env s).state).calls = 0 ∧
      (Artist.searchForArtist env (Artist.searchForArtist env s).state).state =
        (Artist.searchForArtist env s).state) := by
  refine ⟨album_search_cached, ?_, artist_search_cached, ?_⟩
  · intro env s v h
    exact album_search_cached env _ (album_search_ok_cached env s v h)
  · intro env s v h
    exact artist_search_cached env _ (artist_search_ok_cached env s v h)

/-- C2 witness: an entry with a known id resolves with no catalog call
and unchanged state. -/
theorem c2_resolution_memoized_witness :
    (Album.searchForAlbum envFail albumWithId).calls = 0 ∧
    (Album.searchForAlbum envFail albumWithId).state = albumWithId :=
  c2_resolution_memoized.1 envFail albumWithId (Or.inr (Or.inr (by decide)))

/-- C3 counterexample: `setResponse` replaces an already-set id: the
entry holds id `X` and a full response with id `Y` overwrites it. -/
theorem c3_counterexample :
    albumWithId.id = some "X" ∧
    (Album.setResponse albumWithId (some respOtherId)).id = some "Y" := by
  decide

/-- C3 (amended): an entry holding a truthy id keeps it across
resolveIdentity (the whole state is unchanged), across
fetchAlbum/fetchAlbums, and across dispatch; `setResponse`, however,
overwrites the id whenever one of its response guards matches,
regardless of any existing id. -/
theorem c3_id_preserved :
    (∀ (env : CatalogEnv) (s : AlbumState), strTruthy s.id = true →
      (Album.searchForAlbum env s).state = s) ∧
    (∀ (env : CatalogEnv) (s s2 : AlbumState),
      Album.fetchAlbum env s = .ok s2 → s2.id = s.id) ∧
    (∀ (env : CatalogEnv) (s : AlbumState), strTruthy s.id = true →
      (Album.dispatch env s).1.id = s.id) ∧
    (∀ (env : CatalogEnv) (s : ArtistState), strTruthy s.id = true →
      (Artist.searchForArtist env s).state = s) ∧
    (∀ (env : CatalogEnv) (s s2 : ArtistState),
      Artist.fetchAlbums env s = .ok s2 → s2.id = s.id) ∧
    (∀ (env : CatalogEnv) (s : ArtistState), strTruthy s.id = true →
      (Artist.dispatch env s).1.id = s.id) := by
  have albumFetchId : ∀ (env : CatalogEnv) (s s2 : AlbumState),
      Album.fetchAlbum env s = .ok s2 → s2.id = s.id := by
    intro env s s2 h
    rcases album_fetch_shape env s s2 h with ⟨r, hr⟩
    rw [hr]
  have artistFetchId : ∀ (env : CatalogEnv) (s s2 : ArtistState),
      Artist.fetchAlbums env s = .ok s2 → s2.id = s.id := by
    intro env s s2 h
    rcases artist_fetch_shape env s s2 h with ⟨r, hr⟩
    rw [hr]
  refine ⟨album_search_state_of_id, albumFetchId, ?_, artist_search_state_of_id,
    artistFetchId, ?_⟩
  · intro env s hid
    unfold Album.dispatch
    have hs := album_search_state_of_id env s hid
    by_cases hf : s.fetchTracks
    · simp only [hf, if_true]
      cases hr : (Album.searchForAlbum env s).result with
      | error e => simp [hs]
      | ok v =>
        cases he : Album.fetchAlbum env (Album.searchForAlbum env s).state with
        | error e => simp [hs]
        | ok s2 =>
          have h2 : s2.id = s.id := by
            rw [albumFetchId env _ s2 he, hs]
          cases hq : Album.createQueue s2 with
          | error e => simp [hq, h2]
          | ok q => simp [hq, h2]
    · simp only [hf, if_false]
      simp [hs]
  · intro env s hid
    have hs := artist_search_state_of_id env s hid
    unfold Artist.dispatch
    dsimp only
    rw [hs]
    cases hr : (Artist.searchForArtist env s).result with
    | error e => simp [hr]
    | ok v =>
      cases he : Artist.fetchAlbums env s with
      | error e => simp [hr, he]
      | ok s2 =>
        have h2 : s2.id = s.id := artistFetchId env s s2 he
        simp [hr, he, h2]

/-- C3 witness: an album entry with id `X` keeps it through
resolution and dispatch. -/
theorem c3_id_preserved_witness :
    (Album.searchForAlbum envFail albumWithId).state = albumWithId ∧
    (Album.dispatch envFail albumWithId).1.id = albumWithId.id := by
  constructor
  · exact c3_id_preserved.1 envFail albumWithId (by decide)
  · exact c3_id_preserved.2.2.1 envFail albumWithId (by decide)

/-- C4 counterexample: the not-found rejection of a failed album
search is `null` — it does not carry the entry's reference string. -/
theorem c4_counterexample :
    (Album.searchForAlbum envFail albumNoShape).result = .error .nullV ∧
    rejCarries RejVal.nullV albumNoShape.entry = false := by
  decide

/-- C4 (amended): search and fetch failures are not swallowed — a
search failure without applicable fallback surfaces as a rejection,
and a fetch failure propagates its rejection value unchanged — but the
not-found rejection value is `null` and carries no reference string;
the album variant instead logs `COULD NOT FIND ` plus the reference to
the console, while the artist variant logs nothing. -/
theorem c4_failure_propagation :
    (∀ (env : CatalogEnv) (s : AlbumState) (e : RejVal),
      s.searchResponse = none → s.albumResponse = none → strTruthy s.id = false →
      env.searchAlbum s.entry = .error e → matchesIdShape s.entry = false →
      (Album.searchForAlbum env s).result = .error .nullV ∧
      rejCarries RejVal.nullV s.entry = false ∧
      (Album.searchForAlbum env s).log = [.msg ("COULD NOT FIND " ++ s.entry)]) ∧
    (∀ (env : CatalogEnv) (s : ArtistState) (e : RejVal),
      s.searchResponse = none → s.artistResponse = none → strTruthy s.id = false →
      env.searchArtist s.entry = .error e → matchesIdShape s.entry = false →
      (Artist.searchForArtist env s).result = .error .nullV ∧
      (Artist.searchForArtist env s).log = []) ∧
    (∀ (env : CatalogEnv) (s : AlbumState) (e : RejVal),
      env.getAlbum s.id = .error e → Album.fetchAlbum env s = .error e) ∧
    (∀ (env : CatalogEnv) (s : ArtistState) (e : RejVal),
      env.getAlbumsByArtist s.id = .error e → Artist.fetchAlbums env s = .error e) := by
  refine ⟨?_, ?_, ?_, ?_⟩
  · intro env s e h1 h2 h3 h4 hm
    refine ⟨?_, rfl, ?_⟩ <;> simp [Album.searchForAlbum, h1, h2, h3, h4, hm]
  · intro env s e h1 h2 h3 h4 hm
    constructor <;> simp [Artist.searchForArtist, h1, h2, h3, h4, hm]
  · intro env s e h
    unfold Album.fetchAlbum
    rw [h]
    rfl
  · intro env s e h
    unfold Artist.fetchAlbums
    rw [h]
    rfl

/-- C4 witness: the not-found rejection and its console line at the
concrete entry `???`, and a propagated fetch failure. -/
theorem c4_failure_propagation_witness :
    (Album.searchForAlbum envFail albumNoShape).result = .error .nullV ∧
    (Album.searchForAlbum envFail albumNoShape).log =
      [.msg ("COULD NOT FIND " ++ albumNoShape.entry)] ∧
    Album.fetchAlbum envFail albumWithId = .error (.err "network") := by
  refine ⟨?_, ?_, ?_⟩
  · exact (c4_failure_propagation.1 envFail albumNoShape (.err "network")
      rfl rfl (by decide) rfl (by decide)).1
  · exact (c4_failure_propagation.1 envFail albumNoShape (.err "network")
      rfl rfl (by decide) rfl (by decide)).2.2
  · exact c4_failure_propagation.2.2.1 envFail albumWithId (.err "network") rfl

/-- C5 counterexample: `resultLimit = 0` is falsy in JS, so the slice
is skipped: an album with one track and limit 0 still produces one
track, not at most 0. -/
theorem c5_counterexample :
    albumLimit0.limit = some 0 ∧
    Album.createQueue albumLimit0 = .ok [trackEOut] ∧
    ¬([trackEOut].length ≤ 0) := by
  decide

/-- C5 (amended): `setLimit` stores any integer; for a positive limit
k the produced queue is the first k tracks of the album's listing, in
listing order, so it has at most k elements; a limit of 0 is falsy and
treated as unset. -/
theorem c5_limit_enforced :
    (∀ (s : AlbumState) (k : Int), (Album.setLimit s (some k)).limit = some k) ∧
    (∀ (s : AlbumState) (k : Int) (r : Response) (items : List TrackItem),
      s.limit = some k → 0 < k → s.albumResponse = some r → r.tracks = some items →
      Album.createQueue s = .ok ((items.map (fun it =>
        Track.setAlbum (Track.setResponse (Track.init s.entry) it)
          (Album.title s))).take k.toNat)) ∧
    (∀ (s : AlbumState) (k : Int) (r : Response) (items : List TrackItem)
        (q : List TrackState),
      s.limit = some k → 0 < k → s.albumResponse = some r → r.tracks = some items →
      Album.createQueue s = .ok q → q.length ≤ k.toNat) := by
  have main : ∀ (s : AlbumState) (k : Int) (r : Response) (items : List TrackItem),
      s.limit = some k → 0 < k → s.albumResponse = some r → r.tracks = some items →
      Album.createQueue s = .ok ((items.map (fun it =>
        Track.setAlbum (Track.setResponse (Track.init s.entry) it)
          (Album.title s))).take k.toNat) := by
    intro s k r items hl hk hr ht
    have hkne : (k != 0) = true := by
      simp only [bne_iff_ne, ne_eq]
      omega
    unfold Album.createQueue
    simp only [hr]
    simp only [ht]
    simp [hl, intTruthy, hkne]
  refine ⟨fun s k => rfl, main, ?_⟩
  intro s k r items q hl hk hr ht hq
  rw [main s k r items hl hk hr ht] at hq
  have : ((items.map (fun it =>
      Track.setAlbum (Track.setResponse (Track.init s.entry) it)
        (Album.title s))).take k.toNat) = q := Except.ok.inj hq
  rw [← this, List.length_take]
  exact inf_le_left

/-- C5 witness: limit 1 on a two-track album yields exactly the first
track. -/
theorem c5_limit_enforced_witness :
    Album.createQueue albumLimit1 = .ok [trackEOut] ∧
    [trackEOut].length ≤ (1 : Int).toNat := by
  have h1 : Album.createQueue albumLimit1 = .ok [trackEOut] := by
    have h := c5_limit_enforced.2.1 albumLimit1 1 respAlb2 [trackE, trackB]
      rfl (by decide) rfl rfl
    rw [h]
    decide
  exact ⟨h1, c5_limit_enforced.2.2 albumLimit1 1 respAlb2 [trackE, trackB]
    [trackEOut] rfl (by decide) rfl rfl h1⟩

/-! ## Claims about the scraper and artist expansion -/

/-- C6: the last.fm crawl's work queue drains fully regardless of the
page budget: the budget argument never changes the crawl's outcome, a
successful crawl fetches every URI pending in its work queue, and in
the scenario — a source page with 2 track rows, each pushing one
follow-up URI, page budget 1 — both follow-up URIs are visited before
the accumulated buffer is returned. -/
theorem c6_branching_crawl_drains :
    (∀ (fuel : Nat) (env : WebEnv) (uri0 nextUri result : String) (c c' : Int)
       (urls : List String),
      getPagesLF env uri0 fuel nextUri result c urls =
        getPagesLF env uri0 fuel nextUri result c' urls) ∧
    (∀ (fuel : Nat) (env : WebEnv) (uri0 nextUri result : String) (c : Int)
       (urls : List String) (r : String) (vs : List String),
      getPagesLF env uri0 fuel nextUri result c urls = .ok (r, vs) →
      ∀ u ∈ urls, env.absolutize u uri0 ∈ vs) ∧
    lastfm envLF 10 lfUri 1 = .ok (lfResult, [lfUri, lfU1, lfU2]) :=
  ⟨getPagesLF_count_irrelevant, getPagesLF_drains, by decide⟩

/-- C6 witness: in the scenario, the recursion picks the first queued
follow-up URI and fetches the still-pending second one. -/
theorem c6_branching_crawl_drains_witness :
    envLF.absolutize lfU2 lfUri ∈ [lfU1, lfU2] :=
  c6_branching_crawl_drains.2.1 10 envLF lfUri lfU1 lfMid 1 [lfU2] lfResult
    [lfU1, lfU2] (by decide) lfU2 (by decide)

/-- C7 counterexample: the claimed bound — continue only while the
budget exceeds 1 — fails for budget 0 (the pitchfork default): the
crawl only stops when the count reaches exactly 1, so with budget 0 it
keeps following next links and fetches all 3 pages instead of at most
1. -/
theorem c7_counterexample :
    pitchfork envLin 10 linU1 0 =
      .ok ("#album A1\t-\tB1\n#album A2\t-\tB2\n#album A3\t-\tB3\n",
        [linU1, linU2, linU3]) ∧
    ¬([linU1, linU2, linU3].length ≤ 1) := by
  decide

/-- C7 (amended): for page budgets ≥ 1 the three linear strategies
fetch at most budget-many pages (stopping when the decremented count
reaches 1 or no next link exists), and in the scenario — three pages,
each carrying a next link, budget 2 — each strategy fetches exactly
the first 2 pages even though a third next link exists; a budget below
1, such as the pitchfork/rateyourmusic default 0, never meets the
stop-at-1 test and crawls until no next link exists. -/
theorem c7_linear_pagination :
    (∀ (fuel : Nat) (env : WebEnv) (uri0 nextUri result : String) (c : Int)
       (r : String) (vs : List String), 1 ≤ c →
      getPagesPF env uri0 fuel nextUri result c = .ok (r, vs) →
      vs.length ≤ c.toNat) ∧
    (∀ (fuel : Nat) (env : WebEnv) (uri0 nextUri result : String) (c : Int)
       (r : String) (vs : List String), 1 ≤ c →
      getPagesRYM env uri0 fuel nextUri result c = .ok (r, vs) →
      vs.length ≤ c.toNat) ∧
    (∀ (fuel : Nat) (env : WebEnv) (uri0 nextUri result : String) (c : Int)
       (r : String) (vs : List String), 1 ≤ c →
      getPagesRD env uri0 fuel nextUri result c = .ok (r, vs) →
      vs.length ≤ c.toNat) ∧
    pitchfork envLin 10 linU1 2 =
      .ok ("#album A1\t-\tB1\n#album A2\t-\tB2\n", [linU1, linU2]) ∧
    rateyourmusic envLin 10 linU1 2 =
      .ok ("#album A1\t-\tB1\n#album A2\t-\tB2\n", [linU1, linU2]) ∧
    reddit envLin 10 linU1 2 = .ok ("R1\nR2\n", [linU1, linU2]) :=
  ⟨getPagesPF_bound, getPagesRYM_bound, getPagesRD_bound,
    by decide, by decide, by decide⟩

/-- C7 witness: the pitchfork page bound at the concrete budget-2
scenario run. -/
theorem c7_linear_pagination_witness :
    [linU1, linU2].length ≤ (2 : Int).toNat :=
  c7_linear_pagination.1 10 envLin linU1 linU1
    "" 2 "#album A1\t-\tB1\n#album A2\t-\tB2\n" [linU1, linU2]
    (by decide) (by decide)

/-- C8: after artist expansion every track in the output queue credits
the requested artist reference — the final filter keeps exactly the
tracks whose metadata credits the entry string (Queue operations and
Track.hasArtist are modelled from the spec, `queue.js` and `track.js`
not being among the sources). -/
theorem c8_filter_credits_artist :
    (∀ (env : CatalogEnv) (s : ArtistState) (q : List TrackState) (t : TrackState),
      Artist.createQueue env s = .ok q → t ∈ q →
      TrackState.hasArtist t s.entry = true) ∧
    (∀ (env : CatalogEnv) (s s2 : ArtistState) (q : List TrackState) (t : TrackState),
      Artist.dispatch env s = (s2, .ok q) → t ∈ q →
      TrackState.hasArtist t s.entry = true) := by
  have main : ∀ (env : CatalogEnv) (s : ArtistState) (q : List TrackState)
      (t : TrackState), Artist.createQueue env s = .ok q → t ∈ q →
      TrackState.hasArtist t s.entry = true := by
    intro env s q t h ht
    unfold Artist.createQueue at h
    cases hab : s.albumsResponse with
    | none => rw [hab] at h; exact Except.noConfusion h
    | some resp =>
      rw [hab] at h
      dsimp only at h
      cases hit : resp.items with
      | none => rw [hit] at h; exact Except.noConfusion h
      | some items =>
        rw [hit] at h
        dsimp only at h
        rcases except_bind_ok _ _ _ h with ⟨albums2, -, h2⟩
        rcases except_bind_ok _ _ _ h2 with ⟨vals, -, h3⟩
        have hq := Except.ok.inj h3
        rw [← hq] at ht
        exact (List.mem_filter.mp ht).2
  constructor
  · exact main
  · intro env s s2 q t h ht
    unfold Artist.dispatch at h
    dsimp only at h
    cases hr : (Artist.searchForArtist env s).result with
    | error e =>
      rw [hr] at h
      have := congrArg Prod.snd h
      exact Except.noConfusion this
    | ok v =>
      rw [hr] at h
      cases he : Artist.fetchAlbums env (Artist.searchForArtist env s).state with
      | error e =>
        rw [he] at h
        have := congrArg Prod.snd h
        exact Except.noConfusion this
      | ok s3 =>
        rw [he] at h
        have hcq : Artist.createQueue env s3 = .ok q := congrArg Prod.snd h
        have hent : s3.entry = s.entry := by
          rcases artist_fetch_shape env _ s3 he with ⟨r, hr3⟩
          rw [hr3]
          exact artist_search_entry env s
        have := main env s3 q t hcq ht
        rw [hent] at this
        exact this

/-- C8 witness: the concrete artist expansion over one album with one
matching and one non-matching track yields exactly the matching track,
and it credits the requested reference. -/
theorem c8_filter_credits_artist_witness :
    Artist.dispatch envArtistRun artistA = (artistAFinal, .ok [trackAOut]) ∧
    TrackState.hasArtist trackAOut artistA.entry = true := by
  have hd : Artist.dispatch envArtistRun artistA = (artistAFinal, .ok [trackAOut]) := by
    decide
  exact ⟨hd, c8_filter_credits_artist.2 envArtistRun artistA artistAFinal
    [trackAOut] trackAOut hd (by decide)⟩

/-- C9: strategy selection is a total function of the URI's domain
(the domain extraction being the urijs collaborator): it returns the
generic webpage fallback exactly when the domain is none of the known
hosts, and each known host selects its dedicated strategy. -/
theorem c9_scrape_total :
    (∀ d : String, scrape d = Strategy.webpageS ↔ d ∉ knownHosts) ∧
    scrape "last.fm" = Strategy.lastfmS ∧
    scrape "pitchfork.com" = Strategy.pitchforkS ∧
    scrape "rateyourmusic.com" = Strategy.rateyourmusicS ∧
    scrape "reddit.com" = Strategy.redditS ∧
    scrape "youtube.com" = Strategy.youtubeS := by
  refine ⟨?_, by decide, by decide, by decide, by decide, by decide⟩
  intro d
  unfold scrape knownHosts
  by_cases h1 : d = "last.fm"
  · simp [h1]
  · by_cases h2 : d = "pitchfork.com"
    · simp [h1, h2]
    · by_cases h3 : d = "rateyourmusic.com"
      · simp [h1, h2, h3]
      · by_cases h4 : d = "reddit.com"
        · simp [h1, h2, h3, h4]
        · by_cases h5 : d = "youtube.com"
          · simp [h1, h2, h3, h4, h5]
          · simp [h1, h2, h3, h4, h5]

/-- C10: every successful last.fm crawl returns a buffer that begins
with the shuffle directive line: the recursion starts from the
accumulator `#shuffle\n` and only ever appends to it. -/
theorem c10_lastfm_shuffle :
    ∀ (env : WebEnv) (fuel : Nat) (uri : String) (c : Int) (r : String)
      (vs : List String),
      lastfm env fuel uri c = .ok (r, vs) → ∃ t, r = "#shuffle\n" ++ t := by
  intro env fuel uri c r vs h
  unfold lastfm at h
  exact getPagesLF_acc_grows fuel env uri uri "#shuffle\n" _ [] r vs h

/-- C10 witness: a concrete one-page last.fm albums crawl returns the
buffer `#shuffle` line first. -/
theorem c10_lastfm_shuffle_witness :
    ∃ t, lfAlbumsResult = "#shuffle\n" ++ t :=
  c10_lastfm_shuffle envLFAlbums 10 lfAlbumsUri 1 lfAlbumsResult [lfAlbumsUri]
    (by decide)

end Spotgen
